import Mathlib

set_option maxRecDepth 100000

/-!
Verification of the KioskForge configuration model and script engine.

The Python sources are shallowly embedded: strings are lists of characters
(`Str`), mutation is explicit state passing, raised exceptions are explicit
error values, and every function is a computable Lean definition translated
from the corresponding Python body.
-/

namespace KioskForge

/-! ### Text model

Python `str` values are modelled as lists of characters.  The helpers below
model the string primitives the sources use: `str.rstrip`/`str.strip` (ASCII
whitespace), `str.lower` (ASCII case folding, as used on the boolean tokens),
`str.find`, `str.split`, `int(...)`, `str(int)` and `str.replace`.
-/

/-- Python strings, modelled as lists of characters. -/
abbrev Str := List Char

/-- Converts a Lean string literal into the `Str` model. -/
def s2 (s : String) : Str := s.data

/-- Python whitespace (the characters `str.isspace` accepts and `str.strip`
removes), by code point: tab through carriage return (9-13), the information
separators (28-31), space, next line (133), no-break space (160), ogham space
mark (5760), the en-quad through hair-space range (8192-8202), line and
paragraph separators (8232, 8233), narrow no-break space (8239), medium
mathematical space (8287) and ideographic space (12288). -/
def pySpace (c : Char) : Bool :=
  let n := c.toNat
  (9 ≤ n && n ≤ 13) || (28 ≤ n && n ≤ 32) || n = 133 || n = 160 || n = 5760
    || (8192 ≤ n && n ≤ 8202) || n = 8232 || n = 8233 || n = 8239 || n = 8287
    || n = 12288

/-- Python `str.rstrip()`: removes trailing whitespace. -/
def pyRstrip : Str → Str
| [] => []
| c :: cs =>
  let r := pyRstrip cs
  if r = [] then (if pySpace c then [] else [c]) else c :: r

/-- Python `str.lstrip()`: removes leading whitespace. -/
def pyLstrip (s : Str) : Str := s.dropWhile pySpace

/-- Python `str.strip()`: removes leading and trailing whitespace. -/
def pyStrip (s : Str) : Str := pyLstrip (pyRstrip s)

/-- Python `str.lower()`, on the ASCII range (the only range the sources
compare against). -/
def pyLower (s : Str) : Str := s.map Char.toLower

/-- Python `str.find(ch)`: index of the first occurrence, `none` for -1. -/
def findChar : Str → Char → Option Nat
| [], _ => none
| c :: cs, t => if c = t then some 0 else (findChar cs t).map (· + 1)

/-- Python `str.split(sep)` for a one-character separator: splits on every
occurrence, keeping empty pieces; the empty string yields `[""]`. -/
def splitOnChar (t : Char) : Str → List Str
| [] => [[]]
| c :: cs =>
  if c = t then [] :: splitOnChar t cs
  else
    match splitOnChar t cs with
    | [] => [[c]]
    | g :: gs => (c :: g) :: gs

/-- Python `text.split('\n')`, as used by `Options.load_list` and on hints. -/
def splitNl (s : Str) : List Str := splitOnChar '\n' s

/-- Universal-newline translation performed by `open(path, "rt")` when
reading: a `"\r\n"` pair and a lone `'\r'` both become `'\n'`. -/
def univNewlines : Str → Str
| [] => []
| [c] => if c = '\r' then ['\n'] else [c]
| c :: d :: rest =>
  if c = '\r' then
    if d = '\n' then '\n' :: univNewlines rest
    else '\n' :: univNewlines (d :: rest)
  else c :: univNewlines (d :: rest)

/-- Numeric value of an ASCII digit character. -/
def digitVal (c : Char) : Option Nat :=
  if 48 ≤ c.toNat ∧ c.toNat ≤ 57 then some (c.toNat - 48) else none

/-- The ASCII digit character for a value below ten. -/
def digitChr : Nat → Char
| 0 => '0' | 1 => '1' | 2 => '2' | 3 => '3' | 4 => '4'
| 5 => '5' | 6 => '6' | 7 => '7' | 8 => '8' | _ => '9'

/-- Accumulating decimal parse of a digit string (most significant first). -/
def parseDigitsAux (a : Nat) : Str → Option Nat
| [] => some a
| c :: cs =>
  match digitVal c with
  | some d => parseDigitsAux (a * 10 + d) cs
  | none => none

/-- Decimal rendering of a natural number; the fuel argument bounds the
recursion depth and any fuel of at least one per digit is enough. -/
def natToStrAux (fuel : Nat) (n : Nat) : Str :=
  match fuel with
  | 0 => []
  | fuel + 1 =>
    if n < 10 then [digitChr n]
    else natToStrAux fuel (n / 10) ++ [digitChr (n % 10)]

/-- Python `str(n)` for a natural number. -/
def natToStr (n : Nat) : Str := natToStrAux (n + 1) n

/-- Python `str(n)` for an integer. -/
def intToStr (n : Int) : Str :=
  if n < 0 then '-' :: natToStr (-n).toNat else natToStr n.toNat

/-- Magnitude part of Python `int(...)`: a nonempty run of digit groups
separated by single underscores. -/
def pyIntMag (u : Str) : Option Nat :=
  if (splitOnChar '_' u).all (fun g => decide (g ≠ []) && g.all (fun c => (digitVal c).isSome))
  then parseDigitsAux 0 (u.filter (fun c => c != '_'))
  else none

/-- Python `int(text)`: strips whitespace, accepts an optional sign, then a
digit string (with underscore separators); `none` models `ValueError`. -/
def pyInt (s : Str) : Option Int :=
  let t := pyStrip s
  if t.head? = some '-' then (pyIntMag t.tail).map (fun v => -(v : Int))
  else if t.head? = some '+' then (pyIntMag t.tail).map (fun v => (v : Int))
  else (pyIntMag t).map (fun v => (v : Int))

/-- Whether `pat` is a prefix of `s` (first argument is the pattern). -/
def startsWithStr : Str → Str → Bool
| [], _ => true
| _ :: _, [] => false
| p :: ps, c :: cs => p == c && startsWithStr ps cs

/-- Python `pat in s` (substring containment). -/
def containsSub : Str → Str → Bool
| [], pat => startsWithStr pat []
| s@(_ :: cs), pat => startsWithStr pat s || containsSub cs pat

/-- Python `s.replace(pat, rep)` for the empty pattern: `rep` is inserted
before every character and at the end. -/
def replaceEmptyPat (rep : Str) : Str → Str
| [] => rep
| c :: cs => rep ++ c :: replaceEmptyPat rep cs

/-- Python `s.replace(pat, rep)` for a nonempty pattern, with recursion fuel
of at least one unit per character of `s`. -/
def pyReplaceAux (pat rep : Str) : Nat → Str → Str
| 0, s => s
| fuel + 1, s =>
  if startsWithStr pat s then rep ++ pyReplaceAux pat rep fuel (s.drop pat.length)
  else
    match s with
    | [] => []
    | c :: cs => c :: pyReplaceAux pat rep fuel cs

/-- Python `s.replace(pat, rep)`: replaces every non-overlapping occurrence,
scanning left to right. -/
def pyReplace (s pat rep : Str) : Str :=
  if pat = [] then replaceEmptyPat rep s else pyReplaceAux pat rep (s.length + 1) s

/-! ### Results and script-level exceptions

`Result` models `toolbox.invoke.Result` / `kiosklib.invoke.Result`: a status
code and an output string.  `ScriptError` models the two exception classes the
script engines catch (`KioskError`, `InternalError`), each carrying a `text`
message. -/

/-- The result (status code, output) of an action; `Result()` in Python
defaults to status 0 and empty output. -/
structure Result where
  status : Int := 0
  output : String := ""
deriving DecidableEq

/-- The exceptions an `Action.execute()` body can raise into the script
engine: `KioskError` and `InternalError`, each carrying a message `text`. -/
inductive ScriptError where
| kioskError (text : String)
| internalError (text : String)
deriving DecidableEq

/-- The `text` property shared by both error classes. -/
def ScriptError.text : ScriptError → String
| .kioskError t => t
| .internalError t => t

/-- The behaviour of one `Action.execute()` call: either a returned `Result`
or a raised exception. -/
abbrev ActionOutcome := Except ScriptError Result

/-- Python `list[s:]` slice start: non-negative starts count from the front
(clamped by `drop`), negative starts count from the end. -/
def pySliceFrom (l : List α) (s : Int) : List α :=
  if 0 ≤ s then l.drop s.toNat else l.drop (l.length - (-s).toNat)

namespace Kiosklib

/-- The body of the action loop of `kiosklib.script.Script.execute`, carrying
the current `result` variable.  Returns the final `result` together with the
number of actions whose `execute()` was called.  A returned non-zero status
breaks the loop; a caught `KioskError` rebuilds `result` from the previous
status and the message, a caught `InternalError` from status 1 and the
message, and in both cases the loop continues. -/
def runActions : Result → List ActionOutcome → Result × Nat
| result, [] => (result, 0)
| result, action :: rest =>
  match action with
  | .ok r =>
    if r.status ≠ 0 then (r, 1)
    else
      let (r2, n) := runActions r rest
      (r2, n + 1)
  | .error (.kioskError t) =>
    let (r2, n) := runActions { status := result.status, output := t } rest
    (r2, n + 1)
  | .error (.internalError t) =>
    let (r2, n) := runActions { status := 1, output := t } rest
    (r2, n + 1)

/-- The message of the `KioskError` raised by the resume-range check. -/
def resumeErrMsg (n : Nat) : String :=
  "Resume offset outside valid range of one through " ++ toString n

/-- `kiosklib.script.Script.execute`: raises a `KioskError` when the 1-based
resume offset is 0 or exceeds the action count, and otherwise folds
`runActions` over the slice `actions[resume - 1:]` starting from the default
`Result()`.  The second component counts the actions executed. -/
def Script.execute (actions : List ActionOutcome) (resume : Int) :
    Except String (Result × Nat) :=
  if resume = 0 ∨ (actions.length : Int) < resume then
    .error (resumeErrMsg actions.length)
  else
    .ok (runActions {} (pySliceFrom actions (resume - 1)))

end Kiosklib

namespace Toolbox

/-- The body of the action loop of `toolbox.script.Script.execute`.  A caught
`KioskError` or `InternalError` both produce `Result(1, text)` and the loop
continues; a returned non-zero status breaks the loop. -/
def runActions : Result → List ActionOutcome → Result × Nat
| result, [] => (result, 0)
| _result, action :: rest =>
  match action with
  | .ok r =>
    if r.status ≠ 0 then (r, 1)
    else
      let (r2, n) := runActions r rest
      (r2, n + 1)
  | .error e =>
    let (r2, n) := runActions { status := 1, output := e.text } rest
    (r2, n + 1)

/-- `toolbox.script.Script.execute`: raises an `ArgumentError` when the
0-based resume offset is at least the action count, and otherwise folds
`runActions` over the slice `actions[resume:]`. -/
def Script.execute (actions : List ActionOutcome) (resume : Int) :
    Except String (Result × Nat) :=
  if (actions.length : Int) ≤ resume then
    .error "Resume offset greater than total number of actions"
  else
    .ok (runActions {} (pySliceFrom actions resume))

end Toolbox

/-! ### The Field hierarchy (`toolbox/setup.py`)

The Python subclass hierarchy is flattened into one inductive with a case per
concrete class; each case carries the constructor parameters of its class, the
shared `_set` flag, and the current `data` value.  `Field.parse` translates
each class's `parse` method (with the inherited delegations inlined); it
returns the field's state after the call together with the raised `FieldError`
when there is one.  Regular-expression patterns are embedded as their matching
function (`re.fullmatch(pattern, text)` becomes `fullmatch text`). -/

/-- `toolbox.errors.FieldError`: a field name and a message `text`. -/
structure FieldError where
  field : Str
  text : Str
deriving DecidableEq

/-- A configuration field: one case per concrete Python class. -/
inductive Field where
| booleanField (name hint : Str) (set : Bool) (data : Bool)
| naturalField (name hint : Str) (lower upper : Int) (set : Bool) (data : Int)
| optionalStringField (name hint : Str) (set : Bool) (data : Str)
| stringField (name hint : Str) (set : Bool) (data : Str)
| choiceField (name hint : Str) (choices : List Str) (set : Bool) (data : Str)
| passwordField (name hint : Str) (set : Bool) (data : Str)
| regexField (name hint : Str) (fullmatch : Str → Bool) (set : Bool) (data : Str)
| optionalRegexField (name hint : Str) (fullmatch : Str → Bool) (set : Bool) (data : Str)
| optionalTimeField (name hint : Str) (set : Bool) (data : Str)

/-- The `name` property of `Field`. -/
def Field.name : Field → Str
| .booleanField n _ _ _ => n
| .naturalField n _ _ _ _ _ => n
| .optionalStringField n _ _ _ => n
| .stringField n _ _ _ => n
| .choiceField n _ _ _ _ => n
| .passwordField n _ _ _ => n
| .regexField n _ _ _ _ => n
| .optionalRegexField n _ _ _ _ => n
| .optionalTimeField n _ _ _ => n

/-- The `hint` property of `Field`. -/
def Field.hint : Field → Str
| .booleanField _ h _ _ => h
| .naturalField _ h _ _ _ _ => h
| .optionalStringField _ h _ _ => h
| .stringField _ h _ _ => h
| .choiceField _ h _ _ _ => h
| .passwordField _ h _ _ => h
| .regexField _ h _ _ _ => h
| .optionalRegexField _ h _ _ _ => h
| .optionalTimeField _ h _ _ => h

/-- The `changed` property of `Field`: the `_set` flag. -/
def Field.changed : Field → Bool
| .booleanField _ _ s _ => s
| .naturalField _ _ _ _ s _ => s
| .optionalStringField _ _ s _ => s
| .stringField _ _ s _ => s
| .choiceField _ _ _ s _ => s
| .passwordField _ _ s _ => s
| .regexField _ _ _ s _ => s
| .optionalRegexField _ _ _ s _ => s
| .optionalTimeField _ _ s _ => s

/-- The typed current value of a field, wrapped in one sum type. -/
inductive FieldData where
| b (x : Bool)
| i (x : Int)
| s (x : Str)
deriving DecidableEq

/-- The `data` property of `Field`. -/
def Field.data : Field → FieldData
| .booleanField _ _ _ d => .b d
| .naturalField _ _ _ _ _ d => .i d
| .optionalStringField _ _ _ d => .s d
| .stringField _ _ _ d => .s d
| .choiceField _ _ _ _ d => .s d
| .passwordField _ _ _ d => .s d
| .regexField _ _ _ _ d => .s d
| .optionalRegexField _ _ _ _ d => .s d
| .optionalTimeField _ _ _ d => .s d

/-- The `text` property of `Field`: the canonical serialized form of `data`
("true"/"false" for booleans, `str(data)` for naturals, the string itself
for every string-valued class). -/
def Field.text : Field → Str
| .booleanField _ _ _ d => if d then s2 "true" else s2 "false"
| .naturalField _ _ _ _ _ d => intToStr d
| .optionalStringField _ _ _ d => d
| .stringField _ _ _ d => d
| .choiceField _ _ _ _ d => d
| .passwordField _ _ _ d => d
| .regexField _ _ _ _ d => d
| .optionalRegexField _ _ _ _ d => d
| .optionalTimeField _ _ _ d => d

/-- The `type` property of `Field`: the per-class description string. -/
def Field.type : Field → Str
| .booleanField _ _ _ _ => s2 "boolean value: 'true' or 'false'"
| .naturalField _ _ _ _ _ _ => s2 "natural number: integer without a sign"
| .optionalStringField _ _ _ _ => s2 "optional, possibly empty string"
| .stringField _ _ _ _ => s2 "mandatory, non-empty string"
| .choiceField _ _ _ _ _ => s2 "mandatory value from list of valid values"
| .passwordField _ _ _ _ => s2 "mandatory, non-empty password"
| .regexField _ _ _ _ _ => s2 "mandatory regular expression: a valid pattern"
| .optionalRegexField _ _ _ _ _ => s2 "optional, possibly empty regular expression"
| .optionalTimeField _ _ _ _ => s2 "optional, possibly empty time string of the form HH:MM"

/-- The apostrophe character (used when quoting field names in messages). -/
def sq : Char := Char.ofNat 39

/-- Wraps a string in apostrophes, as the messages do with field names. -/
def quoted (s : Str) : Str := sq :: s ++ [sq]

/-- Message `Missing value in field NAME`. -/
def msgMissingValue (name : Str) : Str :=
  s2 "Missing value in field " ++ quoted name

/-- Message `Invalid value in field NAME: DATA`. -/
def msgInvalidValue (name data : Str) : Str :=
  s2 "Invalid value in field " ++ quoted name ++ s2 ": " ++ data

/-- Message `Invalid positive integer in field NAME: DATA`. -/
def msgInvalidPositive (name data : Str) : Str :=
  s2 "Invalid positive integer in field " ++ quoted name ++ s2 ": " ++ data

/-- Message `Invalid integer in field NAME: DATA`. -/
def msgInvalidInteger (name data : Str) : Str :=
  s2 "Invalid integer in field " ++ quoted name ++ s2 ": " ++ data

/-- Message `Value outside bounds (L..U) in field NAME: DATA`. -/
def msgOutsideBounds (name : Str) (lower upper : Int) (data : Str) : Str :=
  s2 "Value outside bounds (" ++ intToStr lower ++ s2 ".." ++ intToStr upper
    ++ s2 ") in field " ++ quoted name ++ s2 ": " ++ data

/-- `toolbox.convert.BOOLEANS` as found in `kiosk/convert.py`: the mapping
from accepted raw tokens to boolean values, in source order. -/
def BOOLEANS : List (Str × Bool) :=
  [ (s2 "0", false), (s2 "f", false), (s2 "false", false), (s2 "n", false),
    (s2 "1", true), (s2 "t", true), (s2 "true", true), (s2 "y", true) ]

/-- Python dictionary lookup on an association list (`KeyError` is `none`). -/
def assocFind : List (Str × Bool) → Str → Option Bool
| [], _ => none
| (k, v) :: rest, key => if key = k then some v else assocFind rest key

/-- The model of `time.strptime(data, "%H:%M")` succeeding: one or two digits
up to 23, a colon, and one or two digits up to 59, with nothing left over. -/
def twoDigitsVal : Str → Option Nat
| [c] => digitVal c
| [c1, c2] =>
  match digitVal c1, digitVal c2 with
  | some a, some b => some (10 * a + b)
  | _, _ => none
| _ => none

/-- Whether a string parses as `%H:%M`. -/
def isHHMM (s : Str) : Bool :=
  match findChar s ':' with
  | none => false
  | some i =>
    match twoDigitsVal (s.take i), twoDigitsVal (s.drop (i + 1)) with
    | some h, some m => h < 24 && m < 60
    | _, _ => false

/-- `Field.parse`: one case per concrete class, translated from each class's
`parse` body with the `super().parse` delegations inlined.  Returns the field
state after the call, together with the raised error when the call raised.
Every raise in the sources happens before any assignment to `data`/`_set`, so
the error branches return the field unchanged. -/
def Field.parse : Field → Str → Field × Option FieldError
| f@(.booleanField name hint _ _), data =>
  -- BooleanField.parse: empty check, then BOOLEANS[data.lower()] and _set.
  if data.length = 0 then (f, some ⟨name, msgMissingValue name⟩)
  else
    match assocFind BOOLEANS (pyLower data) with
    | some b => (.booleanField name hint true b, none)
    | none => (f, some ⟨name, msgInvalidValue name data⟩)
| f@(.naturalField name hint lower upper _ _), data =>
  -- NaturalField.parse: empty and leading-minus checks, int(data), bounds.
  if data = [] then (f, some ⟨name, msgMissingValue name⟩)
  else if data.head? = some '-' then (f, some ⟨name, msgInvalidPositive name data⟩)
  else
    match pyInt data with
    | none => (f, some ⟨name, msgInvalidInteger name data⟩)
    | some value =>
      if value < lower ∨ upper < value then
        (f, some ⟨name, msgOutsideBounds name lower upper data⟩)
      else (.naturalField name hint lower upper true value, none)
| .optionalStringField name hint _ _, data =>
  -- OptionalStringField.parse: unconditionally stores the data.
  (.optionalStringField name hint true data, none)
| f@(.stringField name hint _ _), data =>
  -- StringField.parse: empty check, then OptionalStringField.parse.
  if data = [] then (f, some ⟨name, msgMissingValue name⟩)
  else (.stringField name hint true data, none)
| f@(.choiceField name hint choices _ _), data =>
  -- ChoiceField.parse: membership check, then StringField.parse.
  if data ∉ choices then (f, some ⟨name, msgInvalidValue name data⟩)
  else if data = [] then (f, some ⟨name, msgMissingValue name⟩)
  else (.choiceField name hint choices true data, none)
| f@(.passwordField name hint _ _), data =>
  -- PasswordField.parse: empty, leading-dollar and length checks.
  if data = [] then (f, some ⟨name, s2 "Password cannot be empty"⟩)
  else if data.head? = some '$' then
    (f, some ⟨name, s2 "Password cannot begin with a dollar sign ($)"⟩)
  else if 72 < data.length then
    (f, some ⟨name, s2 "Password too long - cannot exceed 72 characters"⟩)
  else (.passwordField name hint true data, none)
| f@(.regexField name hint fullmatch _ _), data =>
  -- RegexField.parse: empty check, re.fullmatch, then StringField.parse
  -- (whose empty re-check is unreachable here).
  if data = [] then (f, some ⟨name, msgMissingValue name⟩)
  else if ¬ fullmatch data then (f, some ⟨name, msgInvalidValue name data⟩)
  else (.regexField name hint fullmatch true data, none)
| f@(.optionalRegexField name hint fullmatch _ _), data =>
  -- OptionalRegexField.parse: empty data goes to OptionalStringField.parse,
  -- otherwise RegexField.parse.
  if data = [] then (.optionalRegexField name hint fullmatch true data, none)
  else if ¬ fullmatch data then (f, some ⟨name, msgInvalidValue name data⟩)
  else (.optionalRegexField name hint fullmatch true data, none)
| f@(.optionalTimeField name hint _ _), data =>
  -- OptionalTimeField.parse: empty data accepted, otherwise strptime "%H:%M".
  if data = [] then (.optionalTimeField name hint true data, none)
  else if isHHMM data then (.optionalTimeField name hint true data, none)
  else (f, some ⟨name, s2 "Invalid time specification: " ++ data⟩)

/-- `BooleanField.__init__(name, data, hint)`: default `False`, then
`self.parse(data)`. -/
def BooleanField.init (name data hint : Str) : Field × Option FieldError :=
  Field.parse (.booleanField name hint false false) data

/-- `NaturalField.__init__(name, data, hint, lower, upper)`. -/
def NaturalField.init (name data hint : Str) (lower upper : Int) :
    Field × Option FieldError :=
  Field.parse (.naturalField name hint lower upper false 0) data

/-- `OptionalStringField.__init__(name, data, hint)`. -/
def OptionalStringField.init (name data hint : Str) : Field × Option FieldError :=
  Field.parse (.optionalStringField name hint false []) data

/-- `StringField.__init__(name, data, hint)`. -/
def StringField.init (name data hint : Str) : Field × Option FieldError :=
  Field.parse (.stringField name hint false []) data

/-- `ChoiceField.__init__(name, data, hint, choices)`. -/
def ChoiceField.init (name data hint : Str) (choices : List Str) :
    Field × Option FieldError :=
  Field.parse (.choiceField name hint choices false []) data

/-- `PasswordField.__init__(name, data, hint)`. -/
def PasswordField.init (name data hint : Str) : Field × Option FieldError :=
  Field.parse (.passwordField name hint false []) data

/-- `RegexField.__init__(name, data, hint, regex)`. -/
def RegexField.init (name data hint : Str) (fullmatch : Str → Bool) :
    Field × Option FieldError :=
  Field.parse (.regexField name hint fullmatch false []) data

/-- `OptionalRegexField.__init__(name, data, hint, regex)`. -/
def OptionalRegexField.init (name data hint : Str) (fullmatch : Str → Bool) :
    Field × Option FieldError :=
  Field.parse (.optionalRegexField name hint fullmatch false []) data

/-- `OptionalTimeField.__init__(name, data, hint)`. -/
def OptionalTimeField.init (name data hint : Str) : Field × Option FieldError :=
  Field.parse (.optionalTimeField name hint false []) data

/-! ### The Options container (`toolbox/setup.py`)

`Options` keeps an insertion-ordered mapping from field names to fields; it is
modelled as a list of fields.  `getattr(self, name)` becomes a lookup of the
first field with that name (names are unique because `__iadd__` rejects
duplicates), and the in-place mutation performed by `field.parse(data)`
becomes replacing that field by the state `Field.parse` returns. -/

/-- `toolbox.errors.TextFileError`: a file path, a 1-based line number and a
message. -/
structure TextFileError where
  file : Str
  line : Nat
  text : Str
deriving DecidableEq

/-- Message `Illegal redefinition of field NAME`. -/
def msgRedefinition (name : Str) : Str :=
  s2 "Illegal redefinition of field " ++ quoted name

/-- `getattr(options, name)`: the first field carrying `name`. -/
def lookupField : List Field → Str → Option Field
| [], _ => none
| f :: fs, n => if f.name = n then some f else lookupField fs n

/-- Writes back the state of the field named `g.name` after a `parse` call
(the Python `parse` mutates the looked-up object in place). -/
def setField : List Field → Field → List Field
| [], _ => []
| f :: fs, g => if f.name = g.name then g :: fs else f :: setField fs g

/-- One iteration of the line loop of `Options.load_list`: returns the fields
after the line is processed and the error recorded for the line, if any. -/
def processLine (fields : List Field) (allowRedefinitions : Bool) (path : Str)
    (number : Nat) (rawLine : Str) : List Field × Option TextFileError :=
  -- Remove trailing whitespaces.
  let line := pyRstrip rawLine
  -- Ignore empty lines and comment lines.
  if line = [] then (fields, none)
  else if line.head? = some '#' ∨ line.head? = some ';' then (fields, none)
  -- Reject section markers.
  else if line.head? = some '[' ∧ line.getLast? = some ']' then
    (fields, some ⟨path, number, s2 "Sections not supported in kiosk files"⟩)
  else
    -- Parse name/data pair (name=data).
    match findChar line '=' with
    | none => (fields, some ⟨path, number, s2 "Missing delimiter (=) in line"⟩)
    | some index =>
      let name := pyStrip (line.take index)
      let data := pyStrip (line.drop (index + 1))
      -- Fetch the named field (AttributeError when non-existent).
      match lookupField fields name with
      | none => (fields, some ⟨path, number, s2 "Unknown option ignored: " ++ name⟩)
      | some field =>
        -- Check that the field has not already been assigned (set).
        if ¬ allowRedefinitions ∧ field.changed then
          (fields, some ⟨path, number, msgRedefinition name⟩)
        else
          -- Attempt to parse the field's right-hand side (its data).
          let (field2, err) := Field.parse field data
          (setField fields field2,
            match err with
            | some e => some ⟨path, number, e.text⟩
            | none => none)

/-- The line loop of `Options.load_list` over the split lines, threading the
line number (1-based) and accumulating the error list in order. -/
def loadLines (fields : List Field) (allowRedefinitions : Bool) (path : Str)
    (number : Nat) : List Str → List Field × List TextFileError
| [] => (fields, [])
| l :: ls =>
  let (fields2, err) := processLine fields allowRedefinitions path (number + 1) l
  let (fields3, errs) := loadLines fields2 allowRedefinitions path (number + 1) ls
  (fields3,
    match err with
    | some e => e :: errs
    | none => errs)

/-- `Options.load_list(path, allow_redefinitions)`, applied to the raw bytes
`content` of the file at `path`: the text-mode read applies universal-newline
translation, the result is split on newlines and the line loop runs.
Returns the fields after the load and the accumulated error list. -/
def Options.load_list (fields : List Field) (path : Str) (content : Str)
    (allowRedefinitions : Bool) : List Field × List TextFileError :=
  loadLines fields allowRedefinitions path 0 (splitNl (univNewlines content))

/-- A product/version descriptor (`toolbox.version.Version`): only the
`product` and `version` attributes are used by `Options.save`. -/
structure Version where
  product : Str
  version : Str

/-- The line of 78 asterisks behind a `#` that delimits a help block. -/
def starsLine : Str := '#' :: List.replicate 78 '*'

/-- The block of lines `Options.save` writes for one field: the delimited
help text followed by the `name=value` line and a blank line. -/
def fieldBlock (f : Field) : List Str :=
  [ starsLine,
    s2 "# Option " ++ quoted f.name ++ s2 " (" ++ f.type ++ s2 "):",
    s2 "#" ]
  ++ (splitNl f.hint).map (fun l => s2 "# " ++ l)
  ++ [ starsLine, f.name ++ '=' :: f.text, [] ]

/-- All lines `Options.save(path, version)` writes: the two header comment
lines, a blank line, then the block of every field in insertion order. -/
def Options.saveLines (fields : List Field) (v : Version) : List Str :=
  [ s2 "# " ++ v.product ++ s2 " v" ++ v.version ++ s2 " kiosk definition file.",
    s2 "# Please edit this file using your favorite text editor such as Notepad.",
    [] ]
  ++ (fields.map fieldBlock).flatten

/-- `TextWriter.write` (see `kiosk/logger.py`; `toolbox.logger` exposes the
same class) emits each line followed by a newline; rendering a line list
produces the file content `save` writes. -/
def renderLines (lines : List Str) : Str := (lines.map (fun l => l ++ ['\n'])).flatten

/-- `Options.save(path, version)`: the file content written, together with
the fields after the call.  The Python loop reads `field.name`, `field.type`,
`field.hint` and `field.text` and assigns nothing, so the fields are returned
exactly as they were. -/
def Options.save (fields : List Field) (v : Version) : Str × List Field :=
  (renderLines (Options.saveLines fields v), fields)

/-! ### `ReplaceTextAction` (`kiosk/actions.py`)

`execute()` is modelled for an existing regular file (`os.stat` succeeds and
`S_ISREG` holds) whose current content is given: the remaining body is pure
string work.  The `InternalError`/`KioskError` raises are not caught by the
method (its only handler is `except OSError`), so they propagate out. -/

/-- The outcome of `ReplaceTextAction.execute`: a returned `Result` together
with the file content after the call, or a propagated exception. -/
inductive ReplaceOutcome where
| returned (r : Result) (newContent : Str)
| raised (e : ScriptError)

/-- `ReplaceTextAction.execute` on a regular file with content `content`:
raises `InternalError` when source and target are identical, performs
`actual_text.replace(source_text, target_text)`, raises `KioskError` when the
replaced text equals `source_text` (the code compares against the source
text, not the original content), and otherwise writes the result and returns
`Result()`. -/
def ReplaceTextAction.execute (content source_text target_text : Str) :
    ReplaceOutcome :=
  if target_text = source_text then
    .raised (.internalError "Attempt to replace a string with an identical string")
  else
    let output_text := pyReplace content source_text target_text
    if output_text = source_text then
      .raised (.kioskError "Unable to replace string, no occurences of the source string found")
    else
      .returned {} output_text

/-! ### Specification-level predicates

The definitions below are used only to state properties; they do not embed
source code.  `Field.valid` is the per-class validation predicate on a stored
`data` value; `cleanName` and `cleanValue` describe names and serialized
values that survive the flat `name=value` file grammar unchanged. -/

/-- A raw line `load_list` skips without touching any field: blank after
`rstrip`, or starting with a comment marker. -/
def blankOrComment (l : Str) : Bool :=
  decide (pyRstrip l = []) || decide ((pyRstrip l).head? = some '#')
  || decide ((pyRstrip l).head? = some ';')

/-- When a raw line is a well-formed `name=value` assignment to a declared
field of `fields`, the declared name it assigns to. -/
def assignedName (fields : List Field) (rawLine : Str) : Option Str :=
  let line := pyRstrip rawLine
  if line = [] then none
  else if line.head? = some '#' ∨ line.head? = some ';' then none
  else if line.head? = some '[' ∧ line.getLast? = some ']' then none
  else
    match findChar line '=' with
    | none => none
    | some index =>
      let name := pyStrip (line.take index)
      if (lookupField fields name).isSome then some name else none

/-- The boolean tokens `BOOLEANS` maps to `True`, in dictionary order. -/
def trueTokens : List Str := [s2 "1", s2 "t", s2 "true", s2 "y"]

/-- The boolean tokens `BOOLEANS` maps to `False`, in dictionary order. -/
def falseTokens : List Str := [s2 "0", s2 "f", s2 "false", s2 "n"]

/-! ### Concrete sample values (used by witnesses and counterexamples) -/

/-- A short help text for sample fields. -/
def demoHint : Str := s2 "Demo hint."

/-- A sample version descriptor for `Options.save`. -/
def demoVersion : Version := { product := s2 "KioskForge", version := s2 "1.0" }

/-- The `mouse` boolean field as the `Setup` constructor builds it
(`BooleanField("mouse", "false", MOUSE_HELP)`, with a short hint). -/
def demoMouse : Field := (BooleanField.init (s2 "mouse") (s2 "false") demoHint).1

/-- The `idle_timeout` natural field as the `Setup` constructor builds it
(`NaturalField("idle_timeout", "0", ..., 0, 86400)` parsed to 30 as in the
spec's end-to-end scenario). -/
def demoTimeout : Field :=
  (NaturalField.init (s2 "idle_timeout") (s2 "30") demoHint 0 86400).1

/-! ## Theorems -/

/-- The kiosklib action loop runs every leading zero-status action, stops at
the first action returning a non-zero status, and returns that result having
executed exactly the leading actions up to and including it. -/
theorem kiosklib_runActions_first_failure (pre : List Result) (rk : Result)
    (post : List ActionOutcome) (r0 : Result)
    (hpre : ∀ r ∈ pre, r.status = 0) (hk : rk.status ≠ 0) :
    Kiosklib.runActions r0 (pre.map Except.ok ++ Except.ok rk :: post)
      = (rk, pre.length + 1) := by
  induction pre generalizing r0 with
  | nil => simp [Kiosklib.runActions, hk]
  | cons a pre ih =>
    have ha : a.status = 0 := hpre a (by simp)
    have hrest : ∀ r ∈ pre, r.status = 0 := fun r hr => hpre r (by simp [hr])
    simp [Kiosklib.runActions, ha, ih a hrest]

/-- C6: executed from resume index 1, a Script whose first `k - 1` Actions
return status-0 Results and whose `k`-th Action returns a Result with
non-zero status runs exactly Actions 1 through `k` in order, does not run any
later Action, and returns the `k`-th Action's failing Result. -/
theorem C6_abort_on_first_failure (pre : List Result) (rk : Result)
    (post : List ActionOutcome)
    (hpre : ∀ r ∈ pre, r.status = 0) (hk : rk.status ≠ 0) :
    Kiosklib.Script.execute (pre.map Except.ok ++ Except.ok rk :: post) 1
      = .ok (rk, pre.length + 1) := by
  unfold Kiosklib.Script.execute
  rw [if_neg (by simp; omega)]
  simp only [pySliceFrom, if_pos (by omega : (0:Int) ≤ 1 - 1)]
  norm_num
  exact kiosklib_runActions_first_failure pre rk post {} hpre hk

/-- C6 witness: a three-action script whose second action fails with status 1
runs two actions and returns the second action's result. -/
theorem C6_abort_on_first_failure_witness :
    Kiosklib.Script.execute
      [Except.ok {}, Except.ok { status := 1, output := "bad" }, Except.ok {}] 1
      = .ok ({ status := 1, output := "bad" }, 2) :=
  C6_abort_on_first_failure [{}] { status := 1, output := "bad" } [Except.ok {}]
    (by decide) (by decide)

/-- C5 (amended): `Script.execute` with a resume offset equal to 0 or greater
than the action count raises a `KioskError` before executing any Action.  (A
negative resume offset is not rejected: the counterexample shows it slices
from the end of the list and executes actions.) -/
theorem C5_resume_bounds (actions : List ActionOutcome) (r : Int)
    (h : r = 0 ∨ (actions.length : Int) < r) :
    Kiosklib.Script.execute actions r
      = .error (Kiosklib.resumeErrMsg actions.length) := by
  unfold Kiosklib.Script.execute
  rw [if_pos h]

/-- C5 witness: resume offset 0 on a one-action script raises the range
error. -/
theorem C5_resume_bounds_witness :
    Kiosklib.Script.execute [Except.ok {}] 0
      = .error (Kiosklib.resumeErrMsg 1) :=
  C5_resume_bounds [Except.ok {}] 0 (Or.inl rfl)

/-- C5 counterexample: resume offset -1 is outside [1, 2] for a two-action
script, yet `execute()` does not fail: it runs two actions (the slice
`actions[-2:]`) and returns a success Result. -/
theorem C5_counterexample :
    Kiosklib.Script.execute [Except.ok {}, Except.ok {}] (-1)
      = .ok ({ status := 0, output := "" }, 2) := rfl

/-- C1 (amended): a `KioskError` or `InternalError` raised by an Action's
`execute()` body never propagates out of `Script.execute()` (for any in-range
resume offset both engines return a Result); the error's message becomes the
Result's output, but only the toolbox engine and the kiosklib
`InternalError` handler produce status 1 — the kiosklib `KioskError` handler
reuses the previous status, which is 0, so that Result is not failing. -/
theorem C1_exception_conversion :
    (∀ (actions : List ActionOutcome) (r : Int),
      ¬(r = 0 ∨ (actions.length : Int) < r) →
      ∃ p, Kiosklib.Script.execute actions r = .ok p)
    ∧ (∀ (actions : List ActionOutcome) (r : Int),
      r < (actions.length : Int) →
      ∃ p, Toolbox.Script.execute actions r = .ok p)
    ∧ (∀ t : String,
      Kiosklib.Script.execute [Except.error (.internalError t)] 1
        = .ok ({ status := 1, output := t }, 1))
    ∧ (∀ t : String,
      Kiosklib.Script.execute [Except.error (.kioskError t)] 1
        = .ok ({ status := 0, output := t }, 1))
    ∧ (∀ e : ScriptError,
      Toolbox.Script.execute [Except.error e] 0
        = .ok ({ status := 1, output := e.text }, 1)) := by
  refine ⟨?_, ?_, ?_, ?_, ?_⟩
  · intro actions r h
    unfold Kiosklib.Script.execute
    rw [if_neg h]
    exact ⟨_, rfl⟩
  · intro actions r h
    unfold Toolbox.Script.execute
    rw [if_neg (by omega)]
    exact ⟨_, rfl⟩
  · intro t; rfl
  · intro t; rfl
  · intro e
    show Toolbox.Script.execute [Except.error e] 0 = _
    unfold Toolbox.Script.execute
    rw [if_neg (by simp)]
    rfl

/-- C1 witness: concrete instances of the conversion behaviour. -/
theorem C1_exception_conversion_witness :
    (∃ p, Kiosklib.Script.execute [Except.error (.kioskError "boom")] 1 = .ok p)
    ∧ Kiosklib.Script.execute [Except.error (.internalError "oops")] 1
        = .ok ({ status := 1, output := "oops" }, 1) :=
  ⟨C1_exception_conversion.1 [Except.error (.kioskError "boom")] 1 (by decide),
   C1_exception_conversion.2.2.1 "oops"⟩

/-- C1 counterexample: a script whose single Action raises
`KioskError("boom")` makes `kiosklib` `Script.execute()` return a Result with
status 0 — the exception is converted, but not into a failing (non-zero
status) Result as the claim requires. -/
theorem C1_counterexample :
    Kiosklib.Script.execute [Except.error (.kioskError "boom")] 1
      = .ok ({ status := 0, output := "boom" }, 1) := rfl

/-- C3: on a file whose content does not contain the source substring at all,
`ReplaceTextAction.execute` neither fails nor raises: the guard compares the
replaced text against `source_text` instead of the original content, so the
action returns a success Result (status 0) and rewrites the file with its
content unchanged. -/
theorem C3_missing_source_not_reported :
    ReplaceTextAction.execute (s2 "hello") (s2 "xyz") (s2 "abc")
      = .returned { status := 0, output := "" } (s2 "hello")
    ∧ containsSub (s2 "hello") (s2 "xyz") = false :=
  ⟨rfl, rfl⟩

/-- C7 (amended): `Options.save` writes the file content but never assigns to
any field, so every field's `changed` flag after a save is exactly what it
was before the save. -/
theorem C7_save_preserves_changed (fields : List Field) (v : Version) :
    (Options.save fields v).2 = fields
    ∧ ((Options.save fields v).2.map Field.changed) = fields.map Field.changed :=
  ⟨rfl, rfl⟩

/-- C7 counterexample: a freshly constructed boolean field has its `changed`
flag set (the constructor parses the default), and immediately after
`Options.save` it still reports edited — not "not edited" as claimed. -/
theorem C7_counterexample :
    Field.changed demoMouse = true
    ∧ ((Options.save [demoMouse] demoVersion).2.map Field.changed) = [true] :=
  ⟨rfl, rfl⟩

/-- C9: for every concrete field variant and raw input, a `parse` call that
raises leaves the field exactly as it was — every raise in every variant
happens before any assignment to `data` or `_set`. -/
theorem C9_parse_failure_preserves_field (f : Field) (input : Str)
    (g : Field) (e : FieldError) (h : Field.parse f input = (g, some e)) :
    g = f := by
  cases f <;> simp only [Field.parse] at h <;> (repeat' split at h) <;> simp_all

/-- C9 witness: parsing `"-5"` into the `idle_timeout` field fails and leaves
the field (data 30) unchanged. -/
theorem C9_parse_failure_preserves_field_witness :
    (Field.parse demoTimeout (s2 "-5")).1 = demoTimeout :=
  C9_parse_failure_preserves_field demoTimeout (s2 "-5")
    (Field.parse demoTimeout (s2 "-5")).1
    ⟨s2 "idle_timeout", msgInvalidPositive (s2 "idle_timeout") (s2 "-5")⟩ rfl

/-- Case analysis of the `BOOLEANS` dictionary lookup: the key is a true
token, a false token, or absent. -/
theorem assocFind_BOOLEANS_cases (key : Str) :
    (key ∈ trueTokens ∧ assocFind BOOLEANS key = some true)
    ∨ (key ∈ falseTokens ∧ assocFind BOOLEANS key = some false)
    ∨ (key ∉ trueTokens ∧ key ∉ falseTokens ∧ assocFind BOOLEANS key = none) := by
  simp only [assocFind, BOOLEANS]
  split_ifs with h1 h2 h3 h4 h5 h6 h7 h8
  · exact Or.inr (Or.inl ⟨by subst h1; simp [falseTokens], rfl⟩)
  · exact Or.inr (Or.inl ⟨by subst h2; simp [falseTokens], rfl⟩)
  · exact Or.inr (Or.inl ⟨by subst h3; simp [falseTokens], rfl⟩)
  · exact Or.inr (Or.inl ⟨by subst h4; simp [falseTokens], rfl⟩)
  · exact Or.inl ⟨by subst h5; simp [trueTokens], rfl⟩
  · exact Or.inl ⟨by subst h6; simp [trueTokens], rfl⟩
  · exact Or.inl ⟨by subst h7; simp [trueTokens], rfl⟩
  · exact Or.inl ⟨by subst h8; simp [trueTokens], rfl⟩
  · refine Or.inr (Or.inr ⟨?_, ?_, rfl⟩) <;> simp [trueTokens, falseTokens] <;> tauto

/-- No token is both a true token and a false token. -/
theorem trueTokens_falseTokens_disjoint :
    ∀ k : Str, k ∈ trueTokens → k ∉ falseTokens := by
  intro k hk
  fin_cases hk <;> decide

/-- C8 (amended): `BooleanField.parse` succeeds exactly when the input
case-insensitively matches one of the tokens `y/1/true/t` (setting data to
`True`) or `n/0/false/f` (setting data to `False`), and fails on every other
input.  (The claim also listed `yes` and `no`; those are not keys of
`BOOLEANS` and are shown to fail by the counterexample.) -/
theorem C8_boolean_token_set (name hint : Str) (s0 d0 : Bool) (input : Str) :
    ((Field.parse (.booleanField name hint s0 d0) input).2 = none
      ↔ (pyLower input ∈ trueTokens ∨ pyLower input ∈ falseTokens))
    ∧ (pyLower input ∈ trueTokens →
        Field.parse (.booleanField name hint s0 d0) input
          = (.booleanField name hint true true, none))
    ∧ (pyLower input ∈ falseTokens →
        Field.parse (.booleanField name hint s0 d0) input
          = (.booleanField name hint true false, none)) := by
  by_cases hi : input = []
  · subst hi
    refine ⟨by simp [Field.parse]; decide, ?_, ?_⟩ <;>
      · intro h'
        simp only [pyLower, List.map_nil] at h'
        exact absurd h' (by decide)
  · obtain ⟨c, cs, rfl⟩ := List.exists_cons_of_ne_nil hi
    rcases assocFind_BOOLEANS_cases (pyLower (c :: cs)) with
      ⟨hm, hf⟩ | ⟨hm, hf⟩ | ⟨hm1, hm2, hf⟩
    · refine ⟨by simp [Field.parse, hf, hm], fun _ => by simp [Field.parse, hf],
        fun h' => absurd h' (trueTokens_falseTokens_disjoint _ hm)⟩
    · refine ⟨by simp [Field.parse, hf, hm],
        fun h' => absurd hm (trueTokens_falseTokens_disjoint _ h'),
        fun _ => by simp [Field.parse, hf]⟩
    · exact ⟨by simp [Field.parse, hf, hm1, hm2],
        fun h' => absurd h' hm1, fun h' => absurd h' hm2⟩

/-- C8 witness: `"TRUE"` parses to `True` with the field marked assigned. -/
theorem C8_boolean_token_set_witness :
    Field.parse (.booleanField (s2 "mouse") [] false false) (s2 "TRUE")
      = (.booleanField (s2 "mouse") [] true true, none) :=
  (C8_boolean_token_set (s2 "mouse") [] false false (s2 "TRUE")).2.1 (by decide)

/-- C8 counterexample: the input `"yes"` — a true token according to the
claim — fails to parse, because `yes` is not a key of `BOOLEANS`. -/
theorem C8_counterexample :
    (Field.parse (.booleanField (s2 "mouse") [] false false) (s2 "yes")).2
      = some ⟨s2 "mouse", msgInvalidValue (s2 "mouse") (s2 "yes")⟩ := rfl

/-- Every success path of every variant's `parse` raises the `_set` flag. -/
theorem parse_ok_changed (f : Field) (input : Str) (g : Field)
    (h : Field.parse f input = (g, none)) : g.changed = true := by
  cases f <;> simp only [Field.parse] at h <;> (repeat' split at h) <;>
    rw [Prod.mk.injEq] at h <;>
    first
      | (rw [← h.1]; rfl)
      | exact absurd h.2 (by simp)

/-- A field found by name lookup belongs to the field list. -/
theorem lookupField_mem (fields : List Field) (n : Str) (f : Field)
    (h : lookupField fields n = some f) : f ∈ fields := by
  induction fields with
  | nil => simp [lookupField] at h
  | cons g fs ih =>
    simp only [lookupField] at h
    split at h
    · simp_all
    · simp [ih h]

/-- When every field is already marked assigned and redefinitions are
disallowed, no line of the loop ever reaches a `parse` call, so the field
list is unchanged by every line. -/
theorem processLine_allChanged (fields : List Field) (path : Str) (m : Nat)
    (l : Str) (hall : ∀ f ∈ fields, f.changed = true) :
    (processLine fields false path m l).1 = fields := by
  unfold processLine
  by_cases h1 : pyRstrip l = []
  · rw [if_pos h1]
  rw [if_neg h1]
  by_cases h2 : (pyRstrip l).head? = some '#' ∨ (pyRstrip l).head? = some ';'
  · rw [if_pos h2]
  rw [if_neg h2]
  by_cases h3 : (pyRstrip l).head? = some '[' ∧ (pyRstrip l).getLast? = some ']'
  · rw [if_pos h3]
  rw [if_neg h3]
  cases hfc : findChar (pyRstrip l) '=' with
  | none => simp [hfc]
  | some index =>
    cases hlk : lookupField fields (pyStrip ((pyRstrip l).take index)) with
    | none => simp [hfc, hlk]
    | some field =>
      have hch : field.changed = true := hall field (lookupField_mem _ _ _ hlk)
      simp [hfc, hlk, hch]

/-- When every field is already marked assigned and redefinitions are
disallowed, a well-formed `name=value` line for a declared field produces
exactly the illegal-redefinition error and leaves the fields unchanged. -/
theorem processLine_redefinition (fields : List Field) (path : Str) (m : Nat)
    (l : Str) (nm : Str) (hall : ∀ f ∈ fields, f.changed = true)
    (ha : assignedName fields l = some nm) :
    processLine fields false path m l = (fields, some ⟨path, m, msgRedefinition nm⟩) := by
  simp only [assignedName] at ha
  unfold processLine
  by_cases h1 : pyRstrip l = []
  · simp [h1] at ha
  rw [if_neg h1] at ha ⊢
  by_cases h2 : (pyRstrip l).head? = some '#' ∨ (pyRstrip l).head? = some ';'
  · simp only [if_pos h2] at ha
    exact absurd ha (by simp)
  rw [if_neg h2] at ha ⊢
  by_cases h3 : (pyRstrip l).head? = some '[' ∧ (pyRstrip l).getLast? = some ']'
  · simp only [if_pos h3] at ha
    exact absurd ha (by simp)
  rw [if_neg h3] at ha ⊢
  cases hfc : findChar (pyRstrip l) '=' with
  | none =>
    rw [hfc] at ha
    exact absurd ha (by simp)
  | some index =>
    simp only [hfc] at ha
    cases hlk : lookupField fields (pyStrip ((pyRstrip l).take index)) with
    | none =>
      rw [hlk] at ha
      exact absurd ha (by simp)
    | some field =>
      rw [hlk] at ha
      simp only [Option.isSome_some, if_true] at ha
      rw [Option.some_inj] at ha
      have hch : field.changed = true := hall field (lookupField_mem _ _ _ hlk)
      rw [← ha]
      simp [hfc, hlk, hch]

/-- The previous lemma lifted to the whole line loop: the fields are
unchanged after any number of lines. -/
theorem loadLines_allChanged (fields : List Field) (path : Str)
    (hall : ∀ f ∈ fields, f.changed = true) :
    ∀ (lines : List Str) (n : Nat),
      (loadLines fields false path n lines).1 = fields := by
  intro lines
  induction lines with
  | nil => intro n; rfl
  | cons l ls ih =>
    intro n
    simp only [loadLines]
    cases hp : processLine fields false path (n + 1) l with
    | mk fs2 err =>
      have h1 : fs2 = fields := by
        have h := processLine_allChanged fields path (n + 1) l hall
        rw [hp] at h
        exact h
      cases hq : loadLines fs2 false path (n + 1) ls with
      | mk fs3 errs =>
        have h2 : fs3 = fields := by
          have h := ih (n + 1)
          rw [h1] at hq
          rw [hq] at h
          exact h
        cases err <;> simp [h2]

/-- Every well-formed assignment line to a declared field contributes an
illegal-redefinition error at its own line number. -/
theorem loadLines_redefinition_mem (fields : List Field) (path : Str)
    (hall : ∀ f ∈ fields, f.changed = true) :
    ∀ (lines : List Str) (n k : Nat) (hk : k < lines.length) (nm : Str),
      assignedName fields (lines.get ⟨k, hk⟩) = some nm →
      (⟨path, n + k + 1, msgRedefinition nm⟩ : TextFileError)
        ∈ (loadLines fields false path n lines).2 := by
  intro lines
  induction lines with
  | nil => intro n k hk; exact absurd hk (by simp)
  | cons l ls ih =>
    intro n k hk nm ha
    simp only [loadLines]
    cases k with
    | zero =>
      simp only [List.get] at ha
      rw [processLine_redefinition fields path (n + 1) l nm hall ha]
      simp
    | succ k =>
      simp only [List.get] at ha
      cases hp : processLine fields false path (n + 1) l with
      | mk fs2 err =>
        have h1 : fs2 = fields := by
          have h := processLine_allChanged fields path (n + 1) l hall
          rw [hp] at h
          exact h
        cases hq : loadLines fs2 false path (n + 1) ls with
        | mk fs3 errs =>
          have hmem := ih (n + 1) k (by simpa using hk) nm ha
          rw [h1] at hq
          rw [hq] at hmem
          simp only at hmem
          have harith : n + 1 + k + 1 = n + (k + 1) + 1 := by omega
          rw [harith] at hmem
          cases err <;> simp [hmem]

/-- C10: every field constructor parses its built-in default through `parse`,
which raises the `_set` flag, so immediately after construction every field's
`changed` property is `True`; consequently `load_list` with redefinitions
disallowed leaves every field (and its data) untouched and reports an
illegal-redefinition error for every well-formed `name=value` line of a
declared field — in particular for the first such line of every field in the
file. -/
theorem C10_constructed_fields_already_assigned :
    (∀ name data hint f e, BooleanField.init name data hint = (f, e) → e = none →
      f.changed = true)
    ∧ (∀ name data hint lo up f e, NaturalField.init name data hint lo up = (f, e) →
      e = none → f.changed = true)
    ∧ (∀ name data hint f e, OptionalStringField.init name data hint = (f, e) →
      e = none → f.changed = true)
    ∧ (∀ name data hint f e, StringField.init name data hint = (f, e) → e = none →
      f.changed = true)
    ∧ (∀ name data hint cs f e, ChoiceField.init name data hint cs = (f, e) →
      e = none → f.changed = true)
    ∧ (∀ name data hint f e, PasswordField.init name data hint = (f, e) → e = none →
      f.changed = true)
    ∧ (∀ name data hint m f e, RegexField.init name data hint m = (f, e) → e = none →
      f.changed = true)
    ∧ (∀ name data hint m f e, OptionalRegexField.init name data hint m = (f, e) →
      e = none → f.changed = true)
    ∧ (∀ name data hint f e, OptionalTimeField.init name data hint = (f, e) →
      e = none → f.changed = true)
    ∧ (∀ (fields : List Field) (path content : Str),
      (∀ f ∈ fields, f.changed = true) →
      (Options.load_list fields path content false).1 = fields
      ∧ ∀ (k : Nat) (hk : k < (splitNl (univNewlines content)).length) (nm : Str),
          assignedName fields ((splitNl (univNewlines content)).get ⟨k, hk⟩) = some nm →
          (⟨path, k + 1, msgRedefinition nm⟩ : TextFileError)
            ∈ (Options.load_list fields path content false).2) := by
  refine ⟨?_, ?_, ?_, ?_, ?_, ?_, ?_, ?_, ?_, ?_⟩
  · intro name data hint f e h he
    exact parse_ok_changed _ data f (by rw [← he, ← h]; rfl)
  · intro name data hint lo up f e h he
    exact parse_ok_changed _ data f (by rw [← he, ← h]; rfl)
  · intro name data hint f e h he
    exact parse_ok_changed _ data f (by rw [← he, ← h]; rfl)
  · intro name data hint f e h he
    exact parse_ok_changed _ data f (by rw [← he, ← h]; rfl)
  · intro name data hint cs f e h he
    exact parse_ok_changed _ data f (by rw [← he, ← h]; rfl)
  · intro name data hint f e h he
    exact parse_ok_changed _ data f (by rw [← he, ← h]; rfl)
  · intro name data hint m f e h he
    exact parse_ok_changed _ data f (by rw [← he, ← h]; rfl)
  · intro name data hint m f e h he
    exact parse_ok_changed _ data f (by rw [← he, ← h]; rfl)
  · intro name data hint f e h he
    exact parse_ok_changed _ data f (by rw [← he, ← h]; rfl)
  · intro fields path content hall
    exact ⟨loadLines_allChanged fields path hall (splitNl (univNewlines content)) 0,
      fun k hk nm ha => by
        simpa using loadLines_redefinition_mem fields path hall
          (splitNl (univNewlines content)) 0 k hk nm ha⟩

/-- C10 witness: the constructed `mouse` field is already assigned, and
loading `"mouse=true"` with redefinitions disallowed keeps the field as-is
and reports the illegal redefinition of `mouse` on line 1. -/
theorem C10_constructed_fields_already_assigned_witness :
    Field.changed demoMouse = true
    ∧ (Options.load_list [demoMouse] (s2 "demo.kiosk") (s2 "mouse=true") false).1
        = [demoMouse]
    ∧ (⟨s2 "demo.kiosk", 1, msgRedefinition (s2 "mouse")⟩ : TextFileError)
        ∈ (Options.load_list [demoMouse] (s2 "demo.kiosk") (s2 "mouse=true") false).2 := by
  refine ⟨C10_constructed_fields_already_assigned.1 (s2 "mouse") (s2 "false")
    demoHint demoMouse none rfl rfl, ?_, ?_⟩
  · exact (C10_constructed_fields_already_assigned.2.2.2.2.2.2.2.2.2
      [demoMouse] (s2 "demo.kiosk") (s2 "mouse=true") (by decide)).1
  · exact (C10_constructed_fields_already_assigned.2.2.2.2.2.2.2.2.2
      [demoMouse] (s2 "demo.kiosk") (s2 "mouse=true") (by decide)).2
      0 (by decide) (s2 "mouse") (by decide)

/-- A blank or comment line is skipped: no field changes, no error. -/
theorem processLine_skip (fields : List Field) (ar : Bool) (path : Str)
    (m : Nat) (l : Str) (h : blankOrComment l = true) :
    processLine fields ar path m l = (fields, none) := by
  unfold processLine
  by_cases h1 : pyRstrip l = []
  · rw [if_pos h1]
  · rw [if_neg h1]
    have h2 : (pyRstrip l).head? = some '#' ∨ (pyRstrip l).head? = some ';' := by
      by_contra hc
      push_neg at hc
      simp [blankOrComment, h1, hc.1, hc.2] at h
    rw [if_pos h2]

/-- Skipping a run of blank or comment lines only advances the line
number. -/
theorem loadLines_skip (fields : List Field) (ar : Bool) (path : Str) :
    ∀ (ls rest : List Str) (n : Nat), (∀ l ∈ ls, blankOrComment l = true) →
      loadLines fields ar path n (ls ++ rest)
        = loadLines fields ar path (n + ls.length) rest := by
  intro ls
  induction ls with
  | nil =>
    intro rest n _
    simp
  | cons l ls ih =>
    intro rest n h
    have hstep : loadLines fields ar path n (l :: (ls ++ rest))
        = loadLines fields ar path (n + 1) (ls ++ rest) := by
      simp only [loadLines]
      rw [processLine_skip fields ar path (n + 1) l (h l (by simp))]
    rw [List.cons_append, hstep, ih rest (n + 1) (fun p hp => h p (by simp [hp])),
      show n + 1 + ls.length = n + (l :: ls).length from by
        simp only [List.length_cons]; omega]

/-- C4 (amended): `load_list` on a file whose lines are all blank or comments
(in particular a file missing every declared field) returns an empty error
list and leaves every field at its construction-time value — no "never
assigned" entries exist anywhere in the loader. -/
theorem C4_missing_fields_not_reported (fields : List Field)
    (path content : Str) (ar : Bool)
    (h : ∀ l ∈ splitNl (univNewlines content), blankOrComment l = true) :
    Options.load_list fields path content ar = (fields, []) := by
  unfold Options.load_list
  have hs := loadLines_skip fields ar path (splitNl (univNewlines content)) [] 0 h
  simpa using hs

/-- C4 witness: the empty file (missing the declared `mouse` field) loads
with no errors at all. -/
theorem C4_missing_fields_not_reported_witness :
    Options.load_list [demoMouse] (s2 "demo.kiosk") (s2 "") false
      = ([demoMouse], []) :=
  C4_missing_fields_not_reported [demoMouse] (s2 "demo.kiosk") (s2 "") false
    (by decide)

/-- C4 counterexample: a file missing the declared field `mouse` produces an
empty error list — not a non-empty list with a "never assigned" entry per
missing field as claimed. -/
theorem C4_counterexample :
    (Options.load_list [demoMouse] (s2 "demo.kiosk") (s2 "") false).2
      = ([] : List TextFileError) := rfl

end KioskForge
